import Mathlib

/-!
Verification of the CM5 peripheral-test framework (CPU tester and GPIO tester)
against its specification.  The C++ sources (`cpu_tester.cpp`, `gpio_tester.cpp`)
are shallowly embedded: every OS interaction (file existence, file contents,
sysfs write success, hardware thread count) is a parameter of the embedded
function, and the embedded functions reproduce the source control flow over
those parameters.  Timing is idealised: sleeps advance a logical clock by their
nominal amount and all other operations are instantaneous; millisecond values
are naturals.  C++ `double` temperature arithmetic is modelled over `ℚ`
(the comparisons and the division by 1000 performed by the source are exact in
the ranges involved, so no rounding behaviour is lost).
-/

namespace CM5PeripheralTest

/-- Embeds `enum class TestResult` from `peripheral_tester.h`. -/
inductive TestResult where
  | SUCCESS
  | FAILURE
  | NOT_SUPPORTED
  | TIMEOUT
  | SKIPPED
deriving DecidableEq, Repr, Fintype

/-- Embeds the outcome-relevant fields of `struct TestReport`
(`result` and `duration`); the free-text `details`, `peripheral_name` and
`timestamp` fields carry no control-flow information and are elided. -/
structure TestReport where
  result : TestResult
  duration_ms : Nat
deriving DecidableEq, Repr

/-- Embeds `struct CPUInfo` from `cpu_tester.h`.  `frequency_mhz` and
`temperature_c` are rationals standing for the C++ doubles. -/
structure CPUInfo where
  model_name : String
  cores : Int
  architecture : String
  frequency_mhz : ℚ
  temperature_c : ℚ
deriving DecidableEq, Repr

/-! ## CPU tester: benchmark (`CPUTester::benchmark_cpu`) -/

/-- Fuel-bounded Newton iteration for the integer square root; with
`guess ≤ fuel` it coincides with `Nat.sqrt.iter` (proved below as
`sqrt_aux_eq_iter`), but is structurally recursive so the kernel can
evaluate it. -/
def sqrt_aux : Nat → Nat → Nat → Nat
  | 0, _, guess => guess
  | fuel + 1, n, guess =>
    let next := (guess + n / guess) / 2
    if next < guess then sqrt_aux fuel n next else guess

/-- Kernel-computable integer square root, equal to `Nat.sqrt`
(proved below as `sqrt_trial_eq_sqrt`). -/
def sqrt_trial (n : Nat) : Nat :=
  if n ≤ 1 then n else sqrt_aux n n (n / 2)

/-- Trial division from `benchmark_cpu`: `num` survives if no
`i` with `2 ≤ i ≤ sqrt num` divides it.  The C++ loop condition
`i <= std::sqrt(num)` over ints below 10⁴ is exactly `i ≤ Nat.sqrt num`
(double sqrt is correctly rounded and cannot round a non-square across an
integer at this magnitude). -/
def is_prime_trial (num : Nat) : Bool :=
  (List.range' 2 (sqrt_trial num - 1)).all fun i => num % i != 0

/-- The prime sequence produced by `benchmark_cpu`: all `num` in `[2, 10000]`
(`MAX_PRIME = 10000`) surviving trial division, in order. -/
def primes_list : List Nat :=
  (List.range' 2 9999).filter is_prime_trial

/-- Embeds `CPUTester::benchmark_cpu`: fails iff the produced sequence is
empty or its last element differs from the hard-coded 9973. -/
def benchmark_cpu : TestResult :=
  if primes_list.isEmpty || primes_list.getLast? != some 9973 then
    TestResult.FAILURE
  else TestResult.SUCCESS

/-! ## CPU tester: temperature (`get_cpu_temperature`, `test_temperature`) -/

/-- Millidegree normalisation from `get_cpu_temperature`:
readings above 1000 are divided by 1000. -/
def normalize_reading (v : ℚ) : ℚ :=
  if 1000 < v then v / 1000 else v

/-- Embeds `CPUTester::get_cpu_temperature`.  Each candidate sensor file is
modelled as `Option ℚ`: `none` when the file is absent or its first line fails
to parse (both cases `continue` in the source), `some v` when it parses to
`v`.  The first parseable reading is normalised and returned; the sentinel
`-1` signals that no sensor was usable. -/
def get_cpu_temperature : List (Option ℚ) → ℚ
  | [] => -1
  | none :: rest => get_cpu_temperature rest
  | some v :: _ => normalize_reading v

/-- The first parseable sensor reading, un-normalised (helper used to state
properties of `get_cpu_temperature`). -/
def first_reading : List (Option ℚ) → Option ℚ
  | [] => none
  | none :: rest => first_reading rest
  | some v :: _ => some v

/-- Embeds `CPUTester::test_temperature` verbatim, including the
unreachable `temp < 0` disjunct of the second test. -/
def test_temperature (sensors : List (Option ℚ)) : TestResult :=
  let temp := get_cpu_temperature sensors
  if temp < 0 then TestResult.NOT_SUPPORTED
  else if temp < 0 ∨ 100 < temp then TestResult.FAILURE
  else TestResult.SUCCESS

/-! ## CPU tester: multi-core (`CPUTester::test_multi_core`) -/

/-- The value worker `i` stores into its slot: the source computes
`sum += j * i` for `j = 0 .. 999` into `results[i]`.  All summands are
non-negative and far below `int` overflow for realistic thread counts, so the
`Nat` sum is exact. -/
def slot_value (i : Nat) : Nat :=
  (List.range 1000).foldl (fun sum j => sum + j * i) 0

/-- The slot vector after all workers are joined: slot `i` holds
`slot_value i`; the vector is initialised to all zeros and every worker
writes exactly its own slot. -/
def multi_core_results (n : Nat) : List Nat :=
  (List.range n).map slot_value

/-- Embeds `CPUTester::test_multi_core` for a host with `n` hardware
threads: `NOT_SUPPORTED` when `n = 0`, otherwise `FAILURE` iff some joined
slot still holds 0, else `SUCCESS`. -/
def test_multi_core (n : Nat) : TestResult :=
  if n = 0 then TestResult.NOT_SUPPORTED
  else if (multi_core_results n).any fun r => r == 0 then TestResult.FAILURE
  else TestResult.SUCCESS

/-! ## CPU tester: `short_test` aggregation -/

/-- The `all_passed` flag logic of `CPUTester::short_test` (lines 39-70),
one `let` per source `if`: the benchmark and multi-core sub-results must be
`SUCCESS`, the temperature sub-result must be `SUCCESS` or `NOT_SUPPORTED`. -/
def cpu_aggregate (benchmark_result temp_result multi_core_result : TestResult) :
    TestResult :=
  let all0 := true
  let all1 := if benchmark_result ≠ TestResult.SUCCESS then false else all0
  let all2 :=
    if temp_result ≠ TestResult.SUCCESS ∧ temp_result ≠ TestResult.NOT_SUPPORTED
    then false else all1
  let all3 := if multi_core_result ≠ TestResult.SUCCESS then false else all2
  if all3 then TestResult.SUCCESS else TestResult.FAILURE

/-- Embeds `CPUTester::short_test`.  `avail` is the cached `cpu_available_`
flag, `info` the cached `cpu_info_` snapshot (only printed into `details`,
never examined), `sensors` the sensor environment, `nthreads` the
`hardware_concurrency` value.  The second component records which probes ran
(the unavailable path returns before any probe).  Durations follow the
idealised clock: the early return uses the literal 0 ms of the source and the
probing path performs no sleeps. -/
def cpu_short_test (avail : Bool) (info : CPUInfo) (sensors : List (Option ℚ))
    (nthreads : Nat) : TestReport × List String :=
  if !avail then ({ result := TestResult.NOT_SUPPORTED, duration_ms := 0 }, [])
  else
    let benchmark_result := benchmark_cpu
    let temp_result := test_temperature sensors
    let multi_core_result := test_multi_core nthreads
    ({ result := cpu_aggregate benchmark_result temp_result multi_core_result,
       duration_ms := 0 },
     ["benchmark", "temperature", "multi-core"])

/-! ## CPU tester: `/proc/cpuinfo` parsing (`get_cpu_info`, constructor)

`CPUTester::get_cpu_info` scans the lines of `/proc/cpuinfo`; on a line
containing `"cpu cores"` it calls `std::stoi` on the text after the colon
*without* a surrounding try/catch (unlike the frequency and temperature
parses), so a parse failure there propagates as an exception.  The embedding
returns `Except Unit _`, where `Except.error ()` marks an escaped exception. -/

/-- Does `pat` occur as a prefix of `s`?  (Helper for substring search.) -/
def starts_with_chars : List Char → List Char → Bool
  | [], _ => true
  | _ :: _, [] => false
  | p :: ps, c :: cs => p == c && starts_with_chars ps cs

/-- Does `pat` occur as a substring of `s`?  Embeds
`line.find(pat) != std::string::npos`. -/
def contains_chars : List Char → List Char → Bool
  | [], pat => pat.isEmpty
  | c :: rest, pat => starts_with_chars pat (c :: rest) || contains_chars rest pat

/-- Index of the first occurrence of `c` in `s`, embedding `line.find(c)`
(`none` for `npos`). -/
def find_char_idx : List Char → Char → Option Nat
  | [], _ => none
  | x :: rest, c =>
    if x == c then some 0 else (find_char_idx rest c).map (· + 1)

/-- Value of the leading run of decimal digits, `none` when the run is
empty (that is the case in which `std::stoi` throws
`std::invalid_argument`). -/
def leading_nat (cs : List Char) : Option Nat :=
  let ds := cs.takeWhile (·.isDigit)
  if ds.isEmpty then none
  else some (ds.foldl (fun a c => 10 * a + (c.toNat - 48)) 0)

/-- Embeds `std::stoi`: skip whitespace, optional sign, then a non-empty
digit run; `Except.error ()` models the thrown `std::invalid_argument`. -/
def stoi_chars (cs : List Char) : Except Unit Int :=
  let cs1 := cs.dropWhile fun c => c == ' ' || c == '\t' || c == '\n'
  match cs1 with
  | '-' :: rest =>
    match leading_nat rest with
    | none => Except.error ()
    | some n => Except.ok (-(n : Int))
  | '+' :: rest =>
    match leading_nat rest with
    | none => Except.error ()
    | some n => Except.ok (n : Int)
  | rest =>
    match leading_nat rest with
    | none => Except.error ()
    | some n => Except.ok (n : Int)

/-- The `CPUInfo` value at the start of `get_cpu_info` (the C++ members are
default-initialised; the concrete defaults are irrelevant to the claims). -/
def initial_cpu_info : CPUInfo :=
  { model_name := "", cores := 0, architecture := "", frequency_mhz := 0,
    temperature_c := -1 }

/-- One iteration of the `getline` loop of `get_cpu_info`.  The
`"model name"` and `"CPU architecture"` branches copy text; the
`"cpu cores"` branch runs the unguarded `std::stoi`, so its parse failure
aborts the whole computation with `Except.error ()`. -/
def process_cpuinfo_line (info : CPUInfo) (line : String) : Except Unit CPUInfo :=
  let cs := line.toList
  if contains_chars cs ("model name".toList) then
    match find_char_idx cs ':' with
    | none => Except.ok info
    | some p => Except.ok { info with model_name := String.mk (cs.drop (p + 2)) }
  else if contains_chars cs ("cpu cores".toList) then
    match find_char_idx cs ':' with
    | none => Except.ok info
    | some p => (stoi_chars (cs.drop (p + 2))).map fun v => { info with cores := v }
  else if contains_chars cs ("CPU architecture".toList) then
    match find_char_idx cs ':' with
    | none => Except.ok info
    | some p => Except.ok { info with architecture := String.mk (cs.drop (p + 2)) }
  else Except.ok info

/-- Embeds the line loop of `CPUTester::get_cpu_info` over the lines of
`/proc/cpuinfo`.  The frequency and temperature reads that follow the loop
are wrapped in `try`/`catch (...)` in the source and cannot throw, so they
are elided here. -/
def get_cpu_info (lines : List String) : Except Unit CPUInfo :=
  lines.foldlM process_cpuinfo_line initial_cpu_info

/-- Embeds the `CPUTester` constructor: `cpuinfo_exists` models
`fs::exists("/proc/cpuinfo")`; when it holds, `get_cpu_info` runs and any
exception it raises escapes the constructor (`Except.error ()`). -/
def cpu_tester_construct (cpuinfo_exists : Bool) (lines : List String) :
    Except Unit (Bool × CPUInfo) :=
  if cpuinfo_exists then (get_cpu_info lines).map fun i => (true, i)
  else Except.ok (false, initial_cpu_info)

/-! ## GPIO tester -/

/-- The OS environment a GPIO test call runs against.  Each field gives the
outcome of the corresponding fallible sysfs operation (assumed stable for
the duration of one call): `export_ok pin` is the result of
`export_gpio(pin)`, `dir_ok pin output` of `set_gpio_direction`,
`write_ok pin v` of `write_gpio`, `read_val pin` the value returned by
`read_gpio` (`-1` on failure); `pwm_chip` models
`fs::exists("/sys/class/pwm/pwmchip0")` and the remaining flags model the
existence of the I2C/SPI/UART device nodes probed by the source. -/
structure GPIOEnv where
  export_ok : Nat → Bool
  dir_ok : Nat → Bool → Bool
  write_ok : Nat → Nat → Bool
  read_val : Nat → Int
  pwm_chip : Bool
  i2c0 : Bool
  i2c1 : Bool
  spi0 : Bool
  spi1 : Bool
  uart0 : Bool
  uart1 : Bool

/-- Trace of sysfs operations attempted by a GPIO test call (used to state
the resource-safety claims about export/unexport pairing). -/
inductive GpioOp where
  | exportAttempt (pin : Nat)
  | unexportAttempt (pin : Nat)
  | dirAttempt (pin : Nat) (output : Bool)
  | writeAttempt (pin : Nat) (value : Nat)
  | readAttempt (pin : Nat)
deriving DecidableEq, Repr

/-- The pins the digital I/O sub-check exercises
(`std::vector<int> test_gpios = {2, 3, 4}`). -/
def digital_io_pins : List Nat := [2, 3, 4]

/-- One iteration of the pin loop of `GPIOTester::test_digital_io`:
export → set output → write high → write low → set input → read → unexport,
with each failing step returning early.  First component: `true` iff the
round trip succeeded; second: the operations attempted, in order.  Note the
source does *not* unexport when the export step itself fails. -/
def digital_io_pin (env : GPIOEnv) (gpio : Nat) : Bool × List GpioOp :=
  if !(env.export_ok gpio) then (false, [GpioOp.exportAttempt gpio])
  else if !(env.dir_ok gpio true) then
    (false, [GpioOp.exportAttempt gpio, GpioOp.dirAttempt gpio true,
             GpioOp.unexportAttempt gpio])
  else if !(env.write_ok gpio 1) then
    (false, [GpioOp.exportAttempt gpio, GpioOp.dirAttempt gpio true,
             GpioOp.writeAttempt gpio 1, GpioOp.unexportAttempt gpio])
  else if !(env.write_ok gpio 0) then
    (false, [GpioOp.exportAttempt gpio, GpioOp.dirAttempt gpio true,
             GpioOp.writeAttempt gpio 1, GpioOp.writeAttempt gpio 0,
             GpioOp.unexportAttempt gpio])
  else if !(env.dir_ok gpio false) then
    (false, [GpioOp.exportAttempt gpio, GpioOp.dirAttempt gpio true,
             GpioOp.writeAttempt gpio 1, GpioOp.writeAttempt gpio 0,
             GpioOp.dirAttempt gpio false, GpioOp.unexportAttempt gpio])
  else if env.read_val gpio == -1 then
    (false, [GpioOp.exportAttempt gpio, GpioOp.dirAttempt gpio true,
             GpioOp.writeAttempt gpio 1, GpioOp.writeAttempt gpio 0,
             GpioOp.dirAttempt gpio false, GpioOp.readAttempt gpio,
             GpioOp.unexportAttempt gpio])
  else
    (true, [GpioOp.exportAttempt gpio, GpioOp.dirAttempt gpio true,
            GpioOp.writeAttempt gpio 1, GpioOp.writeAttempt gpio 0,
            GpioOp.dirAttempt gpio false, GpioOp.readAttempt gpio,
            GpioOp.unexportAttempt gpio])

/-- The pin loop of `GPIOTester::test_digital_io`: abort with `FAILURE` at
the first failing pin, `SUCCESS` when the round trip passed on every pin. -/
def digital_io_loop (env : GPIOEnv) : List Nat → TestResult × List GpioOp
  | [] => (TestResult.SUCCESS, [])
  | g :: rest =>
    let pr := digital_io_pin env g
    if pr.1 then
      let rr := digital_io_loop env rest
      (rr.1, pr.2 ++ rr.2)
    else (TestResult.FAILURE, pr.2)

/-- Embeds `GPIOTester::test_digital_io`. -/
def digital_io_test (env : GPIOEnv) : TestResult × List GpioOp :=
  digital_io_loop env digital_io_pins

/-- Embeds `GPIOTester::test_pwm`: export GPIO 18, check for the PWM
controller directory, unexport, and report `NOT_SUPPORTED`/`SUCCESS`;
an export failure returns `FAILURE` without unexporting. -/
def test_pwm (env : GPIOEnv) : TestResult × List GpioOp :=
  if !(env.export_ok 18) then (TestResult.FAILURE, [GpioOp.exportAttempt 18])
  else if !env.pwm_chip then
    (TestResult.NOT_SUPPORTED, [GpioOp.exportAttempt 18, GpioOp.unexportAttempt 18])
  else
    (TestResult.SUCCESS, [GpioOp.exportAttempt 18, GpioOp.unexportAttempt 18])

/-- Embeds `GPIOTester::test_i2c`: device-node presence of
`/dev/i2c-0` or `/dev/i2c-1`. -/
def test_i2c (env : GPIOEnv) : TestResult :=
  if env.i2c0 || env.i2c1 then TestResult.SUCCESS else TestResult.NOT_SUPPORTED

/-- Embeds `GPIOTester::test_spi`: device-node presence of
`/dev/spidev0.0` or `/dev/spidev0.1`. -/
def test_spi (env : GPIOEnv) : TestResult :=
  if env.spi0 || env.spi1 then TestResult.SUCCESS else TestResult.NOT_SUPPORTED

/-- Embeds `GPIOTester::test_uart`: device-node presence of
`/dev/ttyAMA0` or `/dev/ttyS0`. -/
def test_uart (env : GPIOEnv) : TestResult :=
  if env.uart0 || env.uart1 then TestResult.SUCCESS else TestResult.NOT_SUPPORTED

/-- The `all_passed` flag logic of `GPIOTester::short_test`: every one of
the five sub-results must be exactly `SUCCESS`. -/
def gpio_aggregate (digital pwm i2c spi uart : TestResult) : TestResult :=
  let all0 := true
  let all1 := if digital ≠ TestResult.SUCCESS then false else all0
  let all2 := if pwm ≠ TestResult.SUCCESS then false else all1
  let all3 := if i2c ≠ TestResult.SUCCESS then false else all2
  let all4 := if spi ≠ TestResult.SUCCESS then false else all3
  let all5 := if uart ≠ TestResult.SUCCESS then false else all4
  if all5 then TestResult.SUCCESS else TestResult.FAILURE

/-- Embeds `GPIOTester::short_test`.  `avail` is the cached
`gpio_available_` flag; the trace collects the sysfs operations of the
digital I/O and PWM sub-checks (the other three only test file existence).
The unavailable path returns the literal 0 ms duration of the source and an
empty trace. -/
def gpio_short_test (avail : Bool) (env : GPIOEnv) : TestReport × List GpioOp :=
  if !avail then ({ result := TestResult.NOT_SUPPORTED, duration_ms := 0 }, [])
  else
    let digital_result := digital_io_test env
    let pwm_result := test_pwm env
    let i2c_result := test_i2c env
    let spi_result := test_spi env
    let uart_result := test_uart env
    ({ result := gpio_aggregate digital_result.1 pwm_result.1 i2c_result
          spi_result uart_result,
       duration_ms := 0 },
     digital_result.2 ++ pwm_result.2)

/-! ## GPIO tester: `monitor_gpio_stability`

Idealised clock: `start_time` is 0; the successful `export_gpio` sleeps
100 ms, so the first `while` check happens at logical time 100; each
iteration reads the pin and sleeps 100 ms, so check `k` happens at time
`100 * k`; the deadline is `1000 * duration_s`. -/

/-- The polling `while` loop of `monitor_gpio_stability`: returns
`(stable_count, total_reads)`. -/
def monitor_loop (env : GPIOEnv) (now deadline stable total : Nat) : Nat × Nat :=
  if now < deadline then
    monitor_loop env (now + 100) deadline
      (if env.read_val 2 ≠ -1 then stable + 1 else stable) (total + 1)
  else (stable, total)
termination_by deadline - now
decreasing_by omega

/-- `(stable_count, total_reads)` accumulated by `monitor_gpio_stability`
for a requested duration of `duration_s` seconds (loop entered at logical
time 100 after the export sleep, deadline `1000 * duration_s`). -/
def monitor_reads (env : GPIOEnv) (duration_s : Nat) : Nat × Nat :=
  monitor_loop env 100 (1000 * duration_s) 0 0

/-- Embeds `GPIOTester::monitor_gpio_stability` on pin 2.  When export
succeeds but the direction write fails, the source returns `FAILURE`
*without* unexporting (the `||` short-circuit covers both setup failures
with one early return).  The success ratio is `stable / total` compared
against 0.95; in `ℚ` a zero `total` gives ratio 0 (in the C++ double
division it gives NaN) — in both cases the comparison fails and the result
is `FAILURE`, so the embedding agrees with the source there.  Individual
reads are omitted from the trace. -/
def monitor_gpio_stability (env : GPIOEnv) (duration_s : Nat) :
    TestResult × List GpioOp :=
  if !(env.export_ok 2) then (TestResult.FAILURE, [GpioOp.exportAttempt 2])
  else if !(env.dir_ok 2 false) then
    (TestResult.FAILURE, [GpioOp.exportAttempt 2, GpioOp.dirAttempt 2 false])
  else
    let r := monitor_reads env duration_s
    let ratio : ℚ := (r.1 : ℚ) / (r.2 : ℚ)
    (if ratio ≥ 95 / 100 then TestResult.SUCCESS else TestResult.FAILURE,
     [GpioOp.exportAttempt 2, GpioOp.dirAttempt 2 false, GpioOp.unexportAttempt 2])

/-! ## Concrete environments used by counterexamples and witnesses -/

/-- Environment in which every export attempt fails. -/
def env_export_fail : GPIOEnv :=
  { export_ok := fun _ => false, dir_ok := fun _ _ => true,
    write_ok := fun _ _ => true, read_val := fun _ => 0,
    pwm_chip := true, i2c0 := true, i2c1 := true, spi0 := true,
    spi1 := true, uart0 := true, uart1 := true }

/-- Environment in which everything works except writing the value 1
(the write-high step). -/
def env_write_fail : GPIOEnv :=
  { export_ok := fun _ => true, dir_ok := fun _ _ => true,
    write_ok := fun _ v => v == 0, read_val := fun _ => 0,
    pwm_chip := true, i2c0 := true, i2c1 := true, spi0 := true,
    spi1 := true, uart0 := true, uart1 := true }

/-- Environment in which exports succeed but every direction write fails. -/
def env_dir_fail : GPIOEnv :=
  { export_ok := fun _ => true, dir_ok := fun _ _ => false,
    write_ok := fun _ _ => true, read_val := fun _ => 0,
    pwm_chip := true, i2c0 := true, i2c1 := true, spi0 := true,
    spi1 := true, uart0 := true, uart1 := true }

/-- Environment in which every sysfs operation and presence check
succeeds. -/
def env_all_ok : GPIOEnv :=
  { export_ok := fun _ => true, dir_ok := fun _ _ => true,
    write_ok := fun _ _ => true, read_val := fun _ => 0,
    pwm_chip := true, i2c0 := true, i2c1 := true, spi0 := true,
    spi1 := true, uart0 := true, uart1 := true }

/-! ## Helper lemmas -/

/-- `sqrt_aux` agrees with the Batteries function `Nat.sqrt.iter` whenever the fuel
dominates the guess (the guess strictly decreases each iteration). -/
theorem sqrt_aux_eq_iter (n : Nat) :
    ∀ fuel guess, guess ≤ fuel → sqrt_aux fuel n guess = Nat.sqrt.iter n guess := by
  intro fuel
  induction fuel with
  | zero =>
    intro guess hg
    have h0 : guess = 0 := Nat.le_zero.mp hg
    subst h0
    unfold Nat.sqrt.iter
    simp [sqrt_aux]
  | succ m ih =>
    intro guess hg
    unfold Nat.sqrt.iter
    by_cases h : (guess + n / guess) / 2 < guess
    · rw [sqrt_aux, if_pos h, dif_pos h]
      exact ih _ (by omega)
    · rw [sqrt_aux, if_neg h, dif_neg h]

/-- The kernel-computable square root used by the benchmark embedding is
the integer square root. -/
theorem sqrt_trial_eq_sqrt (n : Nat) : sqrt_trial n = Nat.sqrt n := by
  unfold sqrt_trial Nat.sqrt
  split
  · rfl
  · exact sqrt_aux_eq_iter n n (n / 2) (Nat.le_trans (Nat.div_le_self n 2) (Nat.le_refl n))

/-- Folding `fun sum j => sum + j * 0` changes nothing: the computation of
worker 0 in `test_multi_core` accumulates only zeros. -/
theorem foldl_add_mul_zero (l : List Nat) :
    ∀ a, l.foldl (fun sum j => sum + j * 0) a = a := by
  induction l with
  | nil => intro a; rfl
  | cons x xs ih =>
    intro a
    simp only [List.foldl_cons, Nat.mul_zero, Nat.add_zero]
    exact ih a

/-- The slot value of worker 0 is 0: `sum += j * 0` never changes the sum. -/
theorem slot_value_zero : slot_value 0 = 0 := by
  show (List.range 1000).foldl (fun sum j => sum + j * 0) 0 = 0
  exact foldl_add_mul_zero _ 0

/-- On any line whose export step succeeded, the digital I/O round trip
attempts an unexport before returning, in the success branch and in every
failure branch. -/
theorem digital_io_pin_unexport (env : GPIOEnv) (g : Nat)
    (h : env.export_ok g = true) :
    GpioOp.unexportAttempt g ∈ (digital_io_pin env g).2 := by
  simp only [digital_io_pin, h, Bool.not_true, Bool.false_eq_true, if_false]
  split_ifs <;> simp

/-- On any line whose export step failed, the digital I/O round trip
records only the export attempt: in particular it does not unexport. -/
theorem digital_io_pin_export_fail (env : GPIOEnv) (g : Nat)
    (h : env.export_ok g = false) :
    (digital_io_pin env g).2 = [GpioOp.exportAttempt g] := by
  simp [digital_io_pin, h]

/-- When the digital I/O pin loop fails, the round trip failed on some
pin, and if the export of that pin had succeeded, the trace of the loop
contains its unexport attempt. -/
theorem digital_io_loop_failure (env : GPIOEnv) :
    ∀ pins : List Nat, (digital_io_loop env pins).1 = TestResult.FAILURE →
      ∃ g, g ∈ pins ∧ (digital_io_pin env g).1 = false ∧
        (env.export_ok g = true →
          GpioOp.unexportAttempt g ∈ (digital_io_loop env pins).2) := by
  intro pins
  induction pins with
  | nil => intro h; simp [digital_io_loop] at h
  | cons g rest ih =>
    intro h
    by_cases hg : (digital_io_pin env g).1 = true
    · have hloop : digital_io_loop env (g :: rest) =
          ((digital_io_loop env rest).1,
           (digital_io_pin env g).2 ++ (digital_io_loop env rest).2) := by
        simp [digital_io_loop, hg]
      rw [hloop] at h
      obtain ⟨g0, hmem, hf, hu⟩ := ih h
      refine ⟨g0, List.mem_cons_of_mem _ hmem, hf, fun hexp => ?_⟩
      rw [hloop]
      exact List.mem_append_right _ (hu hexp)
    · have hg' : (digital_io_pin env g).1 = false := by
        cases hpv : (digital_io_pin env g).1
        · rfl
        · exact absurd hpv hg
      have hloop : digital_io_loop env (g :: rest) =
          (TestResult.FAILURE, (digital_io_pin env g).2) := by
        simp [digital_io_loop, hg']
      refine ⟨g, List.mem_cons_self g rest, hg', fun hexp => ?_⟩
      rw [hloop]
      exact digital_io_pin_unexport env g hexp

/-- `get_cpu_temperature` returns the normalised first parseable reading,
or the `-1` sentinel when there is none. -/
theorem get_cpu_temperature_eq (s : List (Option ℚ)) :
    get_cpu_temperature s =
      match first_reading s with
      | none => -1
      | some v => normalize_reading v := by
  induction s with
  | nil => rfl
  | cons hd tl ih =>
    cases hd with
    | none =>
      simp only [get_cpu_temperature, first_reading]
      exact ih
    | some v => rfl

/-- The total-reads counter of the monitor loop never decreases below its
accumulator. -/
theorem monitor_loop_total_le (env : GPIOEnv) :
    ∀ fuel now deadline stable total, deadline - now ≤ fuel →
      total ≤ (monitor_loop env now deadline stable total).2 := by
  intro fuel
  induction fuel with
  | zero =>
    intro now deadline s t h
    rw [monitor_loop]
    split
    · exfalso; omega
    · exact Nat.le_refl t
  | succ m ih =>
    intro now deadline s t h
    rw [monitor_loop]
    split
    · exact Nat.le_trans (Nat.le_succ t) (ih (now + 100) deadline _ (t + 1) (by omega))
    · exact Nat.le_refl t

/-! ## Claim theorems -/

/-- C1: the claim states that for `n ≥ 1` hardware threads every worker
writes a non-zero value and the multi-core sub-check reports `Success`.
The code contradicts this: worker 0 computes `sum += j * 0`, leaving its
slot at the zero default, so `test_multi_core` returns `FAILURE` for every
positive thread count.  The `n = 0` half of the claim
(`NOT_SUPPORTED`) does hold. -/
theorem c1_multi_core_always_fails (n : Nat) (h : 0 < n) :
    slot_value 0 = 0 ∧ test_multi_core n = TestResult.FAILURE ∧
      test_multi_core 0 = TestResult.NOT_SUPPORTED := by
  refine ⟨slot_value_zero, ?_, rfl⟩
  have hmem : (0 : Nat) ∈ List.range n := List.mem_range.mpr h
  have hany : ((multi_core_results n).any fun r => r == 0) = true := by
    rw [List.any_eq_true]
    exact ⟨slot_value 0, List.mem_map_of_mem _ hmem, by simp [slot_value_zero]⟩
  unfold test_multi_core
  rw [if_neg (by omega), if_pos hany]

/-- C1 witness: a host with 4 hardware threads. -/
theorem c1_multi_core_always_fails_witness :
    0 < 4 ∧ (slot_value 0 = 0 ∧ test_multi_core 4 = TestResult.FAILURE ∧
      test_multi_core 0 = TestResult.NOT_SUPPORTED) :=
  ⟨by decide, c1_multi_core_always_fails 4 (by decide)⟩

/-- C2 counterexample: in an environment where the export of line 2 fails,
the digital I/O sub-check returns `FAILURE` after the failing export step
without ever attempting to unexport that line — refuting the claim that
every failing step (including export) is followed by an unexport. -/
theorem c2_export_fail_counterexample :
    (digital_io_test env_export_fail).1 = TestResult.FAILURE ∧
    GpioOp.exportAttempt 2 ∈ (digital_io_test env_export_fail).2 ∧
    GpioOp.unexportAttempt 2 ∉ (digital_io_test env_export_fail).2 := by
  decide

/-- C2 amended: when the digital I/O sub-check fails, the round trip
failed on some tested line; if the export step of that line succeeded (the
failing step was direction-out, write-high, write-low, direction-in or
read) the sub-check still attempted to unexport it before returning,
whereas if the export step itself failed, only the export attempt was
recorded for that line (no unexport). -/
theorem c2_unexport_on_failure (env : GPIOEnv)
    (hfail : (digital_io_test env).1 = TestResult.FAILURE) :
    ∃ g, g ∈ digital_io_pins ∧ (digital_io_pin env g).1 = false ∧
      (env.export_ok g = true →
        GpioOp.unexportAttempt g ∈ (digital_io_test env).2) ∧
      (env.export_ok g = false →
        (digital_io_pin env g).2 = [GpioOp.exportAttempt g]) := by
  obtain ⟨g, hmem, hf, hu⟩ := digital_io_loop_failure env digital_io_pins hfail
  exact ⟨g, hmem, hf, hu, fun hexp => digital_io_pin_export_fail env g hexp⟩

/-- C2 witness: an environment in which the write-high step fails. -/
theorem c2_unexport_on_failure_witness :
    ∃ g, g ∈ digital_io_pins ∧ (digital_io_pin env_write_fail g).1 = false ∧
      (env_write_fail.export_ok g = true →
        GpioOp.unexportAttempt g ∈ (digital_io_test env_write_fail).2) ∧
      (env_write_fail.export_ok g = false →
        (digital_io_pin env_write_fail g).2 = [GpioOp.exportAttempt g]) :=
  c2_unexport_on_failure env_write_fail (by decide)

/-- C3: the claim states that `monitor_gpio_stability` unexports the
monitored line on every path, but on the path where the export of line 2
succeeds and the set-direction-to-input step fails, the source returns
`FAILURE` while the line is still exported: the trace holds the successful
export attempt and no unexport attempt. -/
theorem c3_monitor_leaks_on_dir_failure :
    env_dir_fail.export_ok 2 = true ∧
    (monitor_gpio_stability env_dir_fail 5).1 = TestResult.FAILURE ∧
    GpioOp.exportAttempt 2 ∈ (monitor_gpio_stability env_dir_fail 5).2 ∧
    GpioOp.unexportAttempt 2 ∉ (monitor_gpio_stability env_dir_fail 5).2 := by
  decide

/-- C4 counterexample: a sensor whose reading parses to `-5` (below the
0–100 range) makes the sub-check report `NOT_SUPPORTED`, not the
`FAILURE` the claim requires for an out-of-range sampled reading. -/
theorem c4_negative_reading_counterexample :
    first_reading [some (-5)] = some (-5) ∧
    test_temperature [some (-5)] ≠ TestResult.FAILURE ∧
    test_temperature [some (-5)] = TestResult.NOT_SUPPORTED := by
  refine ⟨rfl, ?_, ?_⟩ <;> decide

/-- C4 amended: with no parseable reading the result is `NOT_SUPPORTED`;
with a sampled reading whose normalised value is negative the result is
also `NOT_SUPPORTED` (the `-1` sentinel conflates it with sensor absence);
a normalised value above 100 gives `FAILURE`; a value in `[0, 100]` gives
`SUCCESS`. -/
theorem c4_temperature_classification (s : List (Option ℚ)) :
    test_temperature s =
      match first_reading s with
      | none => TestResult.NOT_SUPPORTED
      | some v =>
        if normalize_reading v < 0 then TestResult.NOT_SUPPORTED
        else if 100 < normalize_reading v then TestResult.FAILURE
        else TestResult.SUCCESS := by
  have hg := get_cpu_temperature_eq s
  cases hr : first_reading s with
  | none =>
    rw [hr] at hg
    have hneg : get_cpu_temperature s < 0 := by rw [hg]; norm_num
    simp [test_temperature, if_pos hneg]
  | some v =>
    rw [hr] at hg
    simp only [test_temperature, hg]
    split_ifs <;> first | rfl | tauto

/-- C5: on an available CPU tester, `short_test` aggregates to `SUCCESS`
exactly when the benchmark and multi-core sub-checks report `SUCCESS` and
the temperature sub-check reports `SUCCESS` or `NOT_SUPPORTED`; otherwise
the aggregate is `FAILURE`; and the snapshot-info lines (the `cpu_info_`
contents) never influence the aggregate. -/
theorem c5_cpu_short_test_aggregate (info : CPUInfo) (sensors : List (Option ℚ))
    (n : Nat) :
    ((cpu_short_test true info sensors n).1.result = TestResult.SUCCESS ↔
      (benchmark_cpu = TestResult.SUCCESS ∧
       test_multi_core n = TestResult.SUCCESS ∧
       (test_temperature sensors = TestResult.SUCCESS ∨
        test_temperature sensors = TestResult.NOT_SUPPORTED))) ∧
    ((cpu_short_test true info sensors n).1.result = TestResult.SUCCESS ∨
     (cpu_short_test true info sensors n).1.result = TestResult.FAILURE) ∧
    (∀ info2 : CPUInfo,
      (cpu_short_test true info sensors n).1.result =
        (cpu_short_test true info2 sensors n).1.result) := by
  have key : ∀ b t m : TestResult,
      (cpu_aggregate b t m = TestResult.SUCCESS ↔
        (b = TestResult.SUCCESS ∧ m = TestResult.SUCCESS ∧
          (t = TestResult.SUCCESS ∨ t = TestResult.NOT_SUPPORTED))) ∧
      (cpu_aggregate b t m = TestResult.SUCCESS ∨
       cpu_aggregate b t m = TestResult.FAILURE) := by decide
  have hres : (cpu_short_test true info sensors n).1.result =
      cpu_aggregate benchmark_cpu (test_temperature sensors)
        (test_multi_core n) := rfl
  refine ⟨?_, ?_, fun info2 => rfl⟩
  · rw [hres]
    exact (key _ _ _).1
  · rw [hres]
    exact (key _ _ _).2

/-- C6: on an available GPIO tester, `short_test` aggregates to `SUCCESS`
exactly when all five sub-checks report `SUCCESS`; any other sub-result
(including `NOT_SUPPORTED`) makes the aggregate `FAILURE`. -/
theorem c6_gpio_short_test_aggregate (env : GPIOEnv) :
    ((gpio_short_test true env).1.result = TestResult.SUCCESS ↔
      ((digital_io_test env).1 = TestResult.SUCCESS ∧
       (test_pwm env).1 = TestResult.SUCCESS ∧
       test_i2c env = TestResult.SUCCESS ∧
       test_spi env = TestResult.SUCCESS ∧
       test_uart env = TestResult.SUCCESS)) ∧
    ((gpio_short_test true env).1.result = TestResult.SUCCESS ∨
     (gpio_short_test true env).1.result = TestResult.FAILURE) := by
  have key : ∀ d p i s u : TestResult,
      (gpio_aggregate d p i s u = TestResult.SUCCESS ↔
        (d = TestResult.SUCCESS ∧ p = TestResult.SUCCESS ∧
         i = TestResult.SUCCESS ∧ s = TestResult.SUCCESS ∧
         u = TestResult.SUCCESS)) ∧
      (gpio_aggregate d p i s u = TestResult.SUCCESS ∨
       gpio_aggregate d p i s u = TestResult.FAILURE) := by decide
  have hres : (gpio_short_test true env).1.result =
      gpio_aggregate (digital_io_test env).1 (test_pwm env).1 (test_i2c env)
        (test_spi env) (test_uart env) := rfl
  refine ⟨?_, ?_⟩
  · rw [hres]
    exact (key _ _ _ _ _).1
  · rw [hres]
    exact (key _ _ _ _ _).2

/-- C7: the benchmark is deterministic and always succeeds: the prime
sequence produced by trial division up to 10000 is non-empty and ends in
9973. -/
theorem c7_benchmark_success :
    primes_list ≠ [] ∧ primes_list.getLast? = some 9973 ∧
    benchmark_cpu = TestResult.SUCCESS := by
  have h1 : List.range' 2 9971 ++ List.range' 9973 1 = List.range' 2 9972 :=
    List.range'_append_1 2 9971 1
  have h2 : List.range' 2 9972 ++ List.range' 9974 27 = List.range' 2 9999 :=
    List.range'_append_1 2 9972 27
  have hr : List.range' 2 9999 =
      (List.range' 2 9971 ++ List.range' 9973 1) ++ List.range' 9974 27 := by
    rw [h1, h2]
  have hone : (List.range' 9973 1).filter is_prime_trial = [9973] := by decide
  have hmid : (List.range' 9974 27).filter is_prime_trial = [] := by decide
  have hform : primes_list = (List.range' 2 9971).filter is_prime_trial ++ [9973] := by
    show (List.range' 2 9999).filter is_prime_trial = _
    rw [hr, List.filter_append, List.filter_append, hone, hmid, List.append_nil]
  have hlast : primes_list.getLast? = some 9973 := by
    rw [hform]
    exact List.getLast?_concat _
  have hempty : primes_list.isEmpty = false := by
    rw [hform]
    simp
  refine ⟨?_, hlast, ?_⟩
  · rw [hform]
    simp
  · unfold benchmark_cpu
    rw [hlast, hempty]
    simp

/-- C8: for both testers, `short_test` on an unavailable tester returns
`NOT_SUPPORTED` with a duration of 0 ms and an empty probe trace (no
probing side effects). -/
theorem c8_unavailable_short_circuit (info : CPUInfo) (sensors : List (Option ℚ))
    (n : Nat) (env : GPIOEnv) :
    cpu_short_test false info sensors n =
      ({ result := TestResult.NOT_SUPPORTED, duration_ms := 0 }, []) ∧
    gpio_short_test false env =
      ({ result := TestResult.NOT_SUPPORTED, duration_ms := 0 }, []) :=
  ⟨rfl, rfl⟩

/-- C9: the claim states that parsing during construction never lets an
exception escape.  The code contradicts it: a `/proc/cpuinfo` whose
`cpu cores` value is non-numeric makes the unguarded `std::stoi` throw out
of `get_cpu_info` and hence out of the constructor (`Except.error ()`),
while the same file with a numeric value constructs normally. -/
theorem c9_constructor_exception_escapes :
    cpu_tester_construct true ["processor\t: 0", "cpu cores\t: abc"] =
      Except.error () ∧
    cpu_tester_construct true ["cpu cores\t: 4"] =
      Except.ok (true, { initial_cpu_info with cores := 4 }) :=
  ⟨rfl, rfl⟩

/-- C10: the divisor of the stability-ratio division — the total number of
poll attempts of `monitor_gpio_stability` — is zero exactly when the
requested duration is zero: a positive duration performs at least one poll
before the deadline, while a zero duration never enters the loop body and
the ratio is computed with divisor 0. -/
theorem c10_monitor_divisor (env : GPIOEnv) (d : Nat) :
    (monitor_reads env d).2 = 0 ↔ d = 0 := by
  constructor
  · intro h
    by_contra hd
    have h1 : (100 : Nat) < 1000 * d := by omega
    have h2 : 1 ≤ (monitor_reads env d).2 := by
      unfold monitor_reads
      rw [monitor_loop, if_pos h1]
      exact monitor_loop_total_le env (1000 * d) (100 + 100) (1000 * d) _ 1 (by omega)
    omega
  · intro h
    subst h
    unfold monitor_reads
    rw [monitor_loop, if_neg (by omega)]

end CM5PeripheralTest
